import Mathlib

/-!
Verification of the route layer of a small social-networking backend
(`src/server/routes.ts`).  The route layer binds HTTP verbs and paths to
calls against independent concept modules (Authing, Sessioning, Friending,
Posting, Commenting, Scheduling).  The concept modules themselves are not
part of the repository source; their behaviour is modelled from the
specification and marked as such on each definition.

The embedding uses an explicit state-and-exception semantics: a handler
receives the current session binding and application state and returns an
`Except` result together with the session binding and application state as
they stand when the handler finishes or throws.  A thrown error aborts the
handler but keeps all mutations already performed, which matches the
behaviour of exceptions over an in-place-mutated session store and
document database.

ObjectId values are modelled as natural numbers (the route layer treats
them opaquely), and `Date` values as their ISO source strings.
-/

/-- Errors thrown by concept calls, as surfaced through the route layer. -/
inductive Err where
  | notLoggedIn
  | notLoggedOut
  | usernameTaken
  | userNotFound
  | badCredentials
  | postNotFound
  | notPostAuthor
  | commentNotFound
  | notCommentAuthor
  | eventNotFound
  | notEventOwner
  | alreadyFriends
  | requestAlreadyPending
  | requestNotFound
  | friendNotFound
  deriving DecidableEq, Repr

/-- User document: identity with username/password credential. -/
structure UserDoc where
  id : Nat
  username : String
  password : String
  deriving DecidableEq, Repr

/-- Opaque post options payload (the route layer never inspects it). -/
abbrev PostOptions := String

/-- Opaque comment options payload (the route layer never inspects it). -/
abbrev CommentOptions := String

/-- Post document: author id, content, options; owned by its author. -/
structure PostDoc where
  id : Nat
  author : Nat
  content : String
  options : Option PostOptions
  deriving DecidableEq, Repr

/-- Comment document: parent post id, author id, content, options. -/
structure CommentDoc where
  id : Nat
  post : Nat
  author : Nat
  content : String
  options : Option CommentOptions
  deriving DecidableEq, Repr

/-- Event type: focus or social. -/
inductive EType where
  | focus
  | social
  deriving DecidableEq, Repr

/-- Dates are carried as their ISO source strings. -/
structure EDate where
  iso : String
  deriving DecidableEq, Repr

/-- Event document: owner id, name, start/end time, type. -/
structure EventDoc where
  id : Nat
  owner : Nat
  name : String
  startTime : EDate
  endTime : EDate
  etype : EType
  deriving DecidableEq, Repr

/-- Friend-request state: pending, accepted or rejected. -/
inductive RStatus where
  | pending
  | accepted
  | rejected
  deriving DecidableEq, Repr

/-- Friend request: a (from, to) pair with its state. -/
structure FriendReqDoc where
  fromUser : Nat
  toUser : Nat
  status : RStatus
  deriving DecidableEq, Repr

/-- The persistent application state behind the concept modules. -/
structure AppState where
  users : List UserDoc
  posts : List PostDoc
  comments : List CommentDoc
  events : List EventDoc
  requests : List FriendReqDoc
  friends : List (Nat × Nat)
  nextId : Nat
  deriving DecidableEq, Repr

/-- A session document binds an HTTP session to a logged-in user id. -/
abbrev SessionDoc := Option Nat

/-- Computation over session and application state that may throw.  The
session and state components of the result are the values as they stand
when the computation returns or throws. -/
def M (α : Type) := SessionDoc → AppState → Except Err α × SessionDoc × AppState

/-- Sequencing: a thrown error aborts the continuation but keeps the
session and state as mutated so far. -/
def bindM {α β : Type} (x : M α) (f : α → M β) : M β := fun sess st =>
  match x sess st with
  | (Except.ok a, sess2, st2) => f a sess2 st2
  | (Except.error e, sess2, st2) => (Except.error e, sess2, st2)

/-- Return a value without touching session or state. -/
def pureM {α : Type} (a : α) : M α := fun sess st => (Except.ok a, sess, st)

namespace Sessioning

/-- Modelled from the spec: a session ties an HTTP session to a logged-in
user id; reading the user of a logged-out session throws. -/
def getUser : M Nat := fun sess st =>
  match sess with
  | some u => (Except.ok u, sess, st)
  | none => (Except.error Err.notLoggedIn, sess, st)

/-- Modelled from the spec: asserts the session is logged out. -/
def isLoggedOut : M Unit := fun sess st =>
  match sess with
  | some _ => (Except.error Err.notLoggedOut, sess, st)
  | none => (Except.ok (), sess, st)

/-- Modelled from the spec: session lifecycle start, binding a user id. -/
def start (u : Nat) : M Unit := fun _ st => (Except.ok (), some u, st)

/-- Modelled from the spec: session lifecycle end, clearing the binding.
Named `endSession` because `end` is reserved. -/
def endSession : M Unit := fun _ st => (Except.ok (), none, st)

end Sessioning

namespace Authing

/-- Look up a user by username. -/
def findByUsername (uname : String) (users : List UserDoc) : Option UserDoc :=
  users.find? (fun u => u.username == uname)

/-- Look up a user by id. -/
def findById (i : Nat) (users : List UserDoc) : Option UserDoc :=
  users.find? (fun u => u.id == i)

/-- Modelled from the spec: create an account; usernames are unique. -/
def create (uname pw : String) : M UserDoc := fun sess st =>
  match findByUsername uname st.users with
  | some _ => (Except.error Err.usernameTaken, sess, st)
  | none =>
      let u : UserDoc := ⟨st.nextId, uname, pw⟩
      (Except.ok u, sess, { st with users := st.users ++ [u], nextId := st.nextId + 1 })

/-- Modelled from the spec: lookup by username, throwing when absent. -/
def getUserByUsername (uname : String) : M UserDoc := fun sess st =>
  match findByUsername uname st.users with
  | some u => (Except.ok u, sess, st)
  | none => (Except.error Err.userNotFound, sess, st)

/-- Modelled from the spec: lookup by id, throwing when absent. -/
def getUserById (i : Nat) : M UserDoc := fun sess st =>
  match findById i st.users with
  | some u => (Except.ok u, sess, st)
  | none => (Except.error Err.userNotFound, sess, st)

/-- Modelled from the spec: list all users. -/
def getUsers : M (List UserDoc) := fun sess st => (Except.ok st.users, sess, st)

/-- Modelled from the spec: authenticate a credential pair, throwing on
mismatch and never touching session or state. -/
def authenticate (uname pw : String) : M UserDoc := fun sess st =>
  match st.users.find? (fun u => u.username == uname && u.password == pw) with
  | some u => (Except.ok u, sess, st)
  | none => (Except.error Err.badCredentials, sess, st)

/-- Modelled from the spec: self-update of the username; usernames are
unique. -/
def updateUsername (i : Nat) (uname : String) : M String := fun sess st =>
  match findByUsername uname st.users with
  | some _ => (Except.error Err.usernameTaken, sess, st)
  | none =>
      (Except.ok "Username updated!", sess,
        { st with users := st.users.map fun u => if u.id == i then { u with username := uname } else u })

/-- Modelled from the spec: self-update of the password, checking the
current password first. -/
def updatePassword (i : Nat) (cur new : String) : M String := fun sess st =>
  match findById i st.users with
  | none => (Except.error Err.userNotFound, sess, st)
  | some u =>
      if u.password == cur then
        (Except.ok "Password updated!", sess,
          { st with users := st.users.map fun v => if v.id == i then { v with password := new } else v })
      else (Except.error Err.badCredentials, sess, st)

/-- Modelled from the spec: delete an account, throwing when the user no
longer exists. -/
def delete (i : Nat) : M String := fun sess st =>
  match findById i st.users with
  | none => (Except.error Err.userNotFound, sess, st)
  | some _ => (Except.ok "User deleted!", sess, { st with users := st.users.filter fun u => u.id != i })

/-- Modelled from the spec: map user ids to their usernames for display. -/
def idsToUsernames (ids : List Nat) : M (List String) := fun sess st =>
  (Except.ok (ids.map fun i =>
    match findById i st.users with
    | some u => u.username
    | none => "DELETED_USER"), sess, st)

end Authing

/-- Does a pending request from `f` to `t` exist? -/
def pendingExists (f t : Nat) (l : List FriendReqDoc) : Bool :=
  l.any fun r => r.fromUser == f && r.toUser == t && r.status == RStatus.pending

/-- Remove every pending request from `f` to `t`. -/
def removePending (f t : Nat) (l : List FriendReqDoc) : List FriendReqDoc :=
  l.filter fun r => !(r.fromUser == f && r.toUser == t && r.status == RStatus.pending)

namespace Friending

/-- Modelled from the spec: the friends of a user, read off the symmetric
friendship relation. -/
def getFriends (u : Nat) : M (List Nat) := fun sess st =>
  (Except.ok ((st.friends.filter fun p => p.1 == u).map Prod.snd), sess, st)

/-- Modelled from the spec: remove an existing friendship in both
directions, throwing when the pair are not friends. -/
def removeFriend (u f : Nat) : M String := fun sess st =>
  if (u, f) ∈ st.friends then
    (Except.ok "Friend removed!", sess,
      { st with friends := st.friends.filter fun p => p ≠ (u, f) ∧ p ≠ (f, u) })
  else (Except.error Err.friendNotFound, sess, st)

/-- Modelled from the spec: the requests involving a user. -/
def getRequests (u : Nat) : M (List FriendReqDoc) := fun sess st =>
  (Except.ok (st.requests.filter fun r => r.fromUser == u || r.toUser == u), sess, st)

/-- Modelled from the spec: send a friend request, throwing when the pair
are already friends or a pending request already exists in either
direction. -/
def sendRequest (u t : Nat) : M String := fun sess st =>
  if (u, t) ∈ st.friends ∨ (t, u) ∈ st.friends then
    (Except.error Err.alreadyFriends, sess, st)
  else if pendingExists u t st.requests ∨ pendingExists t u st.requests then
    (Except.error Err.requestAlreadyPending, sess, st)
  else
    (Except.ok "Sent request!", sess, { st with requests := ⟨u, t, RStatus.pending⟩ :: st.requests })

/-- Modelled from the spec: withdraw a pending request, throwing when none
exists. -/
def removeRequest (u t : Nat) : M String := fun sess st =>
  if pendingExists u t st.requests then
    (Except.ok "Removed request!", sess, { st with requests := removePending u t st.requests })
  else (Except.error Err.requestNotFound, sess, st)

/-- Modelled from the spec: accept a pending request; symmetric friendship
materializes on acceptance and the request moves to the accepted state. -/
def acceptRequest (f t : Nat) : M String := fun sess st =>
  if pendingExists f t st.requests then
    (Except.ok "Accepted request!", sess,
      { st with
          requests := ⟨f, t, RStatus.accepted⟩ :: removePending f t st.requests,
          friends := (f, t) :: (t, f) :: st.friends })
  else (Except.error Err.requestNotFound, sess, st)

/-- Modelled from the spec: reject a pending request; the request moves to
the rejected state and no friendship is created. -/
def rejectRequest (f t : Nat) : M String := fun sess st =>
  if pendingExists f t st.requests then
    (Except.ok "Rejected request!", sess,
      { st with requests := ⟨f, t, RStatus.rejected⟩ :: removePending f t st.requests })
  else (Except.error Err.requestNotFound, sess, st)

end Friending

namespace Posting

/-- Look up a post by id. -/
def findPost (i : Nat) (posts : List PostDoc) : Option PostDoc :=
  posts.find? (fun p => p.id == i)

/-- Modelled from the spec: create a post owned by its author. -/
def create (u : Nat) (content : String) (options : Option PostOptions) : M PostDoc := fun sess st =>
  let p : PostDoc := ⟨st.nextId, u, content, options⟩
  (Except.ok p, sess, { st with posts := st.posts ++ [p], nextId := st.nextId + 1 })

/-- Modelled from the spec: list all posts. -/
def getPosts : M (List PostDoc) := fun sess st => (Except.ok st.posts, sess, st)

/-- Modelled from the spec: list the posts of one author. -/
def getByAuthor (u : Nat) : M (List PostDoc) := fun sess st =>
  (Except.ok (st.posts.filter fun p => p.author == u), sess, st)

/-- Modelled from the spec: assert the acting user is the author of the
post, throwing not-found or not-authorized otherwise. -/
def assertAuthorIsUser (i u : Nat) : M Unit := fun sess st =>
  match findPost i st.posts with
  | none => (Except.error Err.postNotFound, sess, st)
  | some p =>
      if p.author == u then (Except.ok (), sess, st)
      else (Except.error Err.notPostAuthor, sess, st)

/-- Modelled from the spec: update content and options of a post. -/
def update (i : Nat) (content : Option String) (options : Option PostOptions) : M String := fun sess st =>
  match findPost i st.posts with
  | none => (Except.error Err.postNotFound, sess, st)
  | some _ =>
      (Except.ok "Post updated!", sess,
        { st with posts := st.posts.map fun p =>
            if p.id == i then
              { p with content := content.getD p.content,
                       options := match options with | some o => some o | none => p.options }
            else p })

/-- Modelled from the spec: delete a post by id. -/
def delete (i : Nat) : M String := fun sess st =>
  (Except.ok "Post deleted!", sess, { st with posts := st.posts.filter fun p => p.id != i })

end Posting

namespace Commenting

/-- Look up a comment by id. -/
def findComment (i : Nat) (comments : List CommentDoc) : Option CommentDoc :=
  comments.find? (fun c => c.id == i)

/-- Modelled from the spec: create a comment on a post, owned by its
author. -/
def create (post u : Nat) (content : String) (options : Option CommentOptions) : M CommentDoc := fun sess st =>
  let c : CommentDoc := ⟨st.nextId, post, u, content, options⟩
  (Except.ok c, sess, { st with comments := st.comments ++ [c], nextId := st.nextId + 1 })

/-- Modelled from the spec: the comments under one post. -/
def getCommentsForPost (post : Nat) : M (List CommentDoc) := fun sess st =>
  (Except.ok (st.comments.filter fun c => c.post == post), sess, st)

/-- Modelled from the spec: assert the acting user is the author of the
comment, throwing not-found or not-authorized otherwise. -/
def assertAuthorIsUser (i u : Nat) : M Unit := fun sess st =>
  match findComment i st.comments with
  | none => (Except.error Err.commentNotFound, sess, st)
  | some c =>
      if c.author == u then (Except.ok (), sess, st)
      else (Except.error Err.notCommentAuthor, sess, st)

/-- Modelled from the spec: update content and options of a comment. -/
def update (i : Nat) (content : Option String) (options : Option CommentOptions) : M String := fun sess st =>
  match findComment i st.comments with
  | none => (Except.error Err.commentNotFound, sess, st)
  | some _ =>
      (Except.ok "Comment updated!", sess,
        { st with comments := st.comments.map fun c =>
            if c.id == i then
              { c with content := content.getD c.content,
                       options := match options with | some o => some o | none => c.options }
            else c })

/-- Modelled from the spec: delete a comment by id. -/
def delete (i : Nat) : M String := fun sess st =>
  (Except.ok "Comment deleted!", sess, { st with comments := st.comments.filter fun c => c.id != i })

end Commenting

namespace Scheduling

/-- Look up an event by id. -/
def findEvent (i : Nat) (events : List EventDoc) : Option EventDoc :=
  events.find? (fun e => e.id == i)

/-- Modelled from the spec: create an event owned by its creator. -/
def create (u : Nat) (name : String) (s e : EDate) (etype : EType) : M EventDoc := fun sess st =>
  let ev : EventDoc := ⟨st.nextId, u, name, s, e, etype⟩
  (Except.ok ev, sess, { st with events := st.events ++ [ev], nextId := st.nextId + 1 })

/-- Modelled from the spec: the events of one user. -/
def getEventsByUser (u : Nat) : M (List EventDoc) := fun sess st =>
  (Except.ok (st.events.filter fun e => e.owner == u), sess, st)

/-- Modelled from the spec: assert the acting user is the owner of the
event, throwing not-found or not-authorized otherwise. -/
def assertUserIsOwner (i u : Nat) : M Unit := fun sess st =>
  match findEvent i st.events with
  | none => (Except.error Err.eventNotFound, sess, st)
  | some e =>
      if e.owner == u then (Except.ok (), sess, st)
      else (Except.error Err.notEventOwner, sess, st)

/-- Modelled from the spec: update the fields of an event that were
provided. -/
def update (i : Nat) (name : Option String) (s e : Option EDate) (etype : Option EType) : M String := fun sess st =>
  match findEvent i st.events with
  | none => (Except.error Err.eventNotFound, sess, st)
  | some _ =>
      (Except.ok "Event updated!", sess,
        { st with events := st.events.map fun ev =>
            if ev.id == i then
              { ev with name := name.getD ev.name,
                        startTime := s.getD ev.startTime,
                        endTime := e.getD ev.endTime,
                        etype := etype.getD ev.etype }
            else ev })

/-- Modelled from the spec: delete an event by id. -/
def delete (i : Nat) : M String := fun sess st =>
  (Except.ok "Event deleted!", sess, { st with events := st.events.filter fun e => e.id != i })

end Scheduling

namespace Responses

/-- Modelled from the spec: response formatting is a pure reshaping of the
documents; it is abstracted as the identity on the embedded documents. -/
def posts (l : List PostDoc) : List PostDoc := l

/-- Modelled from the spec: response formatting for one post. -/
def post (p : PostDoc) : PostDoc := p

/-- Modelled from the spec: response formatting for comments. -/
def comments (l : List CommentDoc) : List CommentDoc := l

/-- Modelled from the spec: response formatting for one comment. -/
def comment (c : CommentDoc) : CommentDoc := c

/-- Modelled from the spec: response formatting for events. -/
def events (l : List EventDoc) : List EventDoc := l

/-- Modelled from the spec: response formatting for one event. -/
def event (e : EventDoc) : EventDoc := e

/-- Modelled from the spec: response formatting for friend requests. -/
def friendRequests (l : List FriendReqDoc) : List FriendReqDoc := l

end Responses

/-- HTTP methods used by the route decorators. -/
inductive Method where
  | get
  | post
  | put
  | patch
  | delete
  deriving DecidableEq, Repr

/-- The route table of `routes.ts`: one (method, path) pair per
`@Router.<method>(path)` decorator, in source order. -/
def routeTable : List (Method × String) :=
  [ (Method.get, "/session"),
    (Method.get, "/users"),
    (Method.get, "/users/:username"),
    (Method.post, "/users"),
    (Method.patch, "/users/username"),
    (Method.patch, "/users/password"),
    (Method.delete, "/users"),
    (Method.post, "/login"),
    (Method.post, "/logout"),
    (Method.get, "/posts"),
    (Method.post, "/posts"),
    (Method.patch, "/posts/:id"),
    (Method.delete, "/posts/:id"),
    (Method.get, "/friends"),
    (Method.delete, "/friends/:friend"),
    (Method.get, "/friend/requests"),
    (Method.post, "/friend/requests/:to"),
    (Method.delete, "/friend/requests/:to"),
    (Method.put, "/friend/accept/:from"),
    (Method.put, "/friend/reject/:from"),
    (Method.get, "/posts/:postId/comments"),
    (Method.post, "/comments/:postId"),
    (Method.patch, "/comments/:id"),
    (Method.delete, "/comments/:id"),
    (Method.get, "/events"),
    (Method.post, "/events"),
    (Method.patch, "/events/:id"),
    (Method.delete, "/events/:id") ]

namespace Routes

/-- GET /session: current user from session. -/
def getSessionUser : M UserDoc :=
  bindM Sessioning.getUser fun user => Authing.getUserById user

/-- GET /users: list users. -/
def getUsers : M (List UserDoc) := Authing.getUsers

/-- GET /users/:username: lookup by username. -/
def getUser (username : String) : M UserDoc :=
  Authing.getUserByUsername username

/-- POST /users: create an account; asserts the session is logged out,
then delegates to account creation. -/
def createUser (username password : String) : M UserDoc :=
  bindM Sessioning.isLoggedOut fun _ => Authing.create username password

/-- PATCH /users/username: self-update of the username. -/
def updateUsername (username : String) : M String :=
  bindM Sessioning.getUser fun user => Authing.updateUsername user username

/-- PATCH /users/password: self-update of the password. -/
def updatePassword (currentPassword newPassword : String) : M String :=
  bindM Sessioning.getUser fun user => Authing.updatePassword user currentPassword newPassword

/-- DELETE /users: reads the session user, ends the session, then deletes
the account. -/
def deleteUser : M String :=
  bindM Sessioning.getUser fun user =>
  bindM Sessioning.endSession fun _ =>
  Authing.delete user

/-- POST /login: authenticate, then start the session for the user. -/
def logIn (username password : String) : M String :=
  bindM (Authing.authenticate username password) fun u =>
  bindM (Sessioning.start u.id) fun _ =>
  pureM "Logged in!"

/-- POST /logout: end the session. -/
def logOut : M String :=
  bindM Sessioning.endSession fun _ => pureM "Logged out!"

/-- GET /posts: list posts, optionally filtered by author username; an
absent or empty author parameter is falsy and lists all posts. -/
def getPosts (author : Option String) : M (List PostDoc) :=
  match author with
  | some a =>
      if a = "" then
        bindM Posting.getPosts fun posts => pureM (Responses.posts posts)
      else
        bindM (Authing.getUserByUsername a) fun u =>
        bindM (Posting.getByAuthor u.id) fun posts =>
        pureM (Responses.posts posts)
  | none =>
      bindM Posting.getPosts fun posts => pureM (Responses.posts posts)

/-- POST /posts: create a post for the session user. -/
def createPost (content : String) (options : Option PostOptions) : M PostDoc :=
  bindM Sessioning.getUser fun user =>
  bindM (Posting.create user content options) fun created =>
  pureM (Responses.post created)

/-- PATCH /posts/:id: asserts the session user is the author, then
updates the post. -/
def updatePost (id : Nat) (content : Option String) (options : Option PostOptions) : M String :=
  bindM Sessioning.getUser fun user =>
  bindM (Posting.assertAuthorIsUser id user) fun _ =>
  Posting.update id content options

/-- DELETE /posts/:id: asserts the session user is the author, then
deletes the post. -/
def deletePost (id : Nat) : M String :=
  bindM Sessioning.getUser fun user =>
  bindM (Posting.assertAuthorIsUser id user) fun _ =>
  Posting.delete id

/-- GET /friends: the session user's friends, as usernames. -/
def getFriends : M (List String) :=
  bindM Sessioning.getUser fun user =>
  bindM (Friending.getFriends user) fun fs =>
  Authing.idsToUsernames fs

/-- DELETE /friends/:friend: resolves the friend username to an id, then
removes the friendship. -/
def removeFriend (friend : String) : M String :=
  bindM Sessioning.getUser fun user =>
  bindM (Authing.getUserByUsername friend) fun f =>
  Friending.removeFriend user f.id

/-- GET /friend/requests: the session user's friend requests. -/
def getRequests : M (List FriendReqDoc) :=
  bindM Sessioning.getUser fun user =>
  bindM (Friending.getRequests user) fun rs =>
  pureM (Responses.friendRequests rs)

/-- POST /friend/requests/:to: resolves the target username to an id,
then sends the request. -/
def sendFriendRequest (to_ : String) : M String :=
  bindM Sessioning.getUser fun user =>
  bindM (Authing.getUserByUsername to_) fun t =>
  Friending.sendRequest user t.id

/-- DELETE /friend/requests/:to: resolves the target username to an id,
then withdraws the request. -/
def removeFriendRequest (to_ : String) : M String :=
  bindM Sessioning.getUser fun user =>
  bindM (Authing.getUserByUsername to_) fun t =>
  Friending.removeRequest user t.id

/-- PUT /friend/accept/:from: resolves the sender username to an id, then
accepts the request addressed to the session user. -/
def acceptFriendRequest (from_ : String) : M String :=
  bindM Sessioning.getUser fun user =>
  bindM (Authing.getUserByUsername from_) fun f =>
  Friending.acceptRequest f.id user

/-- PUT /friend/reject/:from: resolves the sender username to an id, then
rejects the request addressed to the session user. -/
def rejectFriendRequest (from_ : String) : M String :=
  bindM Sessioning.getUser fun user =>
  bindM (Authing.getUserByUsername from_) fun f =>
  Friending.rejectRequest f.id user

/-- GET /posts/:postId/comments: the comments under a post. -/
def getComments (postId : Nat) : M (List CommentDoc) :=
  bindM (Commenting.getCommentsForPost postId) fun cs =>
  pureM (Responses.comments cs)

/-- POST /comments/:postId: create a comment on a post for the session
user. -/
def createComment (postId : Nat) (content : String) (options : Option CommentOptions) : M CommentDoc :=
  bindM Sessioning.getUser fun user =>
  bindM (Commenting.create postId user content options) fun created =>
  pureM (Responses.comment created)

/-- PATCH /comments/:id: asserts the session user is the author, then
updates the comment. -/
def updateComment (id : Nat) (content : Option String) (options : Option CommentOptions) : M String :=
  bindM Sessioning.getUser fun user =>
  bindM (Commenting.assertAuthorIsUser id user) fun _ =>
  Commenting.update id content options

/-- DELETE /comments/:id: asserts the session user is the author, then
deletes the comment. -/
def deleteComment (id : Nat) : M String :=
  bindM Sessioning.getUser fun user =>
  bindM (Commenting.assertAuthorIsUser id user) fun _ =>
  Commenting.delete id

/-- GET /events: the session user's events. -/
def getEvents : M (List EventDoc) :=
  bindM Sessioning.getUser fun user =>
  bindM (Scheduling.getEventsByUser user) fun evs =>
  pureM (Responses.events evs)

/-- POST /events: create an event for the session user. -/
def createEvent (name startTime endTime : String) (etype : EType) : M EventDoc :=
  bindM Sessioning.getUser fun user =>
  bindM (Scheduling.create user name ⟨startTime⟩ ⟨endTime⟩ etype) fun created =>
  pureM (Responses.event created)

/-- PATCH /events/:id: asserts the session user is the owner, then
updates the event. -/
def updateEvent (id : Nat) (name : Option String) (startTime endTime : Option String) (etype : Option EType) : M String :=
  bindM Sessioning.getUser fun user =>
  bindM (Scheduling.assertUserIsOwner id user) fun _ =>
  Scheduling.update id name (startTime.map EDate.mk) (endTime.map EDate.mk) etype

/-- DELETE /events/:id: asserts the session user is the owner, then
deletes the event. -/
def deleteEvent (id : Nat) : M String :=
  bindM Sessioning.getUser fun user =>
  bindM (Scheduling.assertUserIsOwner id user) fun _ =>
  Scheduling.delete id

end Routes

/-- Propagation of a failure of the first concept call of a handler: the
handler returns the same error with the session and state the call left
behind. -/
def chainHead {α β : Type} (c1 : M α) (H : M β) : Prop :=
  ∀ sess st e s2 t2, c1 sess st = (Except.error e, s2, t2) →
    H sess st = (Except.error e, s2, t2)

/-- Propagation through a two-call handler: a failure of either call
surfaces unchanged. -/
def chain2Prop {α β : Type} (c1 : M α) (k : α → M β) (H : M β) : Prop :=
  chainHead c1 H ∧
  ∀ sess st a s2 t2 e s3 t3, c1 sess st = (Except.ok a, s2, t2) →
    k a s2 t2 = (Except.error e, s3, t3) → H sess st = (Except.error e, s3, t3)

/-- Propagation through a three-call handler: a failure of any call
surfaces unchanged. -/
def chain3Prop {α β γ : Type} (c1 : M α) (k2 : α → M β) (k3 : α → β → M γ) (H : M γ) : Prop :=
  chainHead c1 H ∧
  (∀ sess st a s2 t2 e s3 t3, c1 sess st = (Except.ok a, s2, t2) →
    k2 a s2 t2 = (Except.error e, s3, t3) → H sess st = (Except.error e, s3, t3)) ∧
  (∀ sess st a s2 t2 b s3 t3 e s4 t4, c1 sess st = (Except.ok a, s2, t2) →
    k2 a s2 t2 = (Except.ok b, s3, t3) → k3 a b s3 t3 = (Except.error e, s4, t4) →
    H sess st = (Except.error e, s4, t4))

/-- The empty application state, used for concrete instantiations. -/
def st0 : AppState := ⟨[], [], [], [], [], [], 0⟩

/-- A concrete state with two users, one post, one comment and one event,
all owned by user 1, used for concrete instantiations. -/
def stW : AppState :=
  { users := [⟨0, "alice", "pw"⟩, ⟨1, "bob", "pw"⟩],
    posts := [⟨2, 1, "hello", none⟩],
    comments := [⟨3, 2, 1, "hi", none⟩],
    events := [⟨4, 1, "standup", ⟨"2024-01-01"⟩, ⟨"2024-01-02"⟩, EType.focus⟩],
    requests := [],
    friends := [],
    nextId := 5 }

theorem bindM_ok {α β : Type} {x : M α} {f : α → M β} {sess : SessionDoc} {st : AppState}
    {a : α} {sess2 : SessionDoc} {st2 : AppState}
    (h : x sess st = (Except.ok a, sess2, st2)) :
    bindM x f sess st = f a sess2 st2 := by
  simp [bindM, h]

theorem bindM_err {α β : Type} {x : M α} {f : α → M β} {sess : SessionDoc} {st : AppState}
    {e : Err} {sess2 : SessionDoc} {st2 : AppState}
    (h : x sess st = (Except.error e, sess2, st2)) :
    bindM x f sess st = (Except.error e, sess2, st2) := by
  simp [bindM, h]

theorem bindHead_propagates {α β : Type} (c1 : M α) (k : α → M β) :
    chainHead c1 (bindM c1 k) := by
  intro sess st e s2 t2 h
  simp [bindM, h]

theorem bind2_propagates {α β : Type} (c1 : M α) (k : α → M β) :
    chain2Prop c1 k (bindM c1 k) := by
  refine ⟨bindHead_propagates c1 k, ?_⟩
  intro sess st a s2 t2 e s3 t3 h1 h2
  simp [bindM, h1, h2]

theorem bind3_propagates {α β γ : Type} (c1 : M α) (k2 : α → M β) (k3 : α → β → M γ) :
    chain3Prop c1 k2 k3 (bindM c1 fun a => bindM (k2 a) fun b => k3 a b) := by
  refine ⟨bindHead_propagates _ _, ?_, ?_⟩
  · intro sess st a s2 t2 e s3 t3 h1 h2
    simp [bindM, h1, h2]
  · intro sess st a s2 t2 b s3 t3 e s4 t4 h1 h2 h3
    simp [bindM, h1, h2, h3]

/-- Claim C3: POST /users requires the session to be logged out.  For
every logged-in session, `createUser` fails at the `Sessioning.isLoggedOut`
check with session and state unchanged, so no account is created; for
every logged-out session it delegates to `Authing.create` on the same
username and password. -/
theorem c3_createUser_requires_logged_out :
    (∀ (u : Nat) (st : AppState) (username password : String),
      Routes.createUser username password (some u) st =
        (Except.error Err.notLoggedOut, some u, st)) ∧
    (∀ (st : AppState) (username password : String),
      Routes.createUser username password none st = Authing.create username password none st) :=
  ⟨fun _ _ _ _ => rfl, fun _ _ _ => rfl⟩

/-- Claim C4: every session-derived handler calls `Sessioning.getUser`
first, so on a logged-out session it fails with the not-logged-in error
and leaves the session and the whole application state untouched — no
concept mutation or read on behalf of a user happens. -/
theorem c4_session_required (st : AppState) :
    Routes.getSessionUser none st = (Except.error Err.notLoggedIn, none, st) ∧
    (∀ username, Routes.updateUsername username none st = (Except.error Err.notLoggedIn, none, st)) ∧
    (∀ cur new, Routes.updatePassword cur new none st = (Except.error Err.notLoggedIn, none, st)) ∧
    Routes.deleteUser none st = (Except.error Err.notLoggedIn, none, st) ∧
    (∀ content options, Routes.createPost content options none st = (Except.error Err.notLoggedIn, none, st)) ∧
    (∀ id content options, Routes.updatePost id content options none st = (Except.error Err.notLoggedIn, none, st)) ∧
    (∀ id, Routes.deletePost id none st = (Except.error Err.notLoggedIn, none, st)) ∧
    Routes.getFriends none st = (Except.error Err.notLoggedIn, none, st) ∧
    (∀ friend, Routes.removeFriend friend none st = (Except.error Err.notLoggedIn, none, st)) ∧
    Routes.getRequests none st = (Except.error Err.notLoggedIn, none, st) ∧
    (∀ t, Routes.sendFriendRequest t none st = (Except.error Err.notLoggedIn, none, st)) ∧
    (∀ t, Routes.removeFriendRequest t none st = (Except.error Err.notLoggedIn, none, st)) ∧
    (∀ f, Routes.acceptFriendRequest f none st = (Except.error Err.notLoggedIn, none, st)) ∧
    (∀ f, Routes.rejectFriendRequest f none st = (Except.error Err.notLoggedIn, none, st)) ∧
    (∀ postId content options, Routes.createComment postId content options none st = (Except.error Err.notLoggedIn, none, st)) ∧
    (∀ id content options, Routes.updateComment id content options none st = (Except.error Err.notLoggedIn, none, st)) ∧
    (∀ id, Routes.deleteComment id none st = (Except.error Err.notLoggedIn, none, st)) ∧
    Routes.getEvents none st = (Except.error Err.notLoggedIn, none, st) ∧
    (∀ name s e ty, Routes.createEvent name s e ty none st = (Except.error Err.notLoggedIn, none, st)) ∧
    (∀ id name s e ty, Routes.updateEvent id name s e ty none st = (Except.error Err.notLoggedIn, none, st)) ∧
    (∀ id, Routes.deleteEvent id none st = (Except.error Err.notLoggedIn, none, st)) :=
  ⟨rfl, fun _ => rfl, fun _ _ => rfl, rfl, fun _ _ => rfl, fun _ _ _ => rfl, fun _ => rfl,
   rfl, fun _ => rfl, rfl, fun _ => rfl, fun _ => rfl, fun _ => rfl, fun _ => rfl,
   fun _ _ _ => rfl, fun _ _ _ => rfl, fun _ => rfl, rfl, fun _ _ _ _ => rfl,
   fun _ _ _ _ _ => rfl, fun _ => rfl⟩

/-- Claim C7, counterexample: comment creation is not registered under
POST /posts/:postId/comments; no decorator in `routes.ts` carries that
method and path. -/
theorem c7_counterexample :
    (Method.post, "/posts/:postId/comments") ∉ routeTable := by decide

/-- Claim C7, amended: comment reads are exposed at GET
/posts/:postId/comments, but comment creation is exposed at POST
/comments/:postId (not under /posts/:postId/comments), and comment update
and deletion at PATCH and DELETE /comments/:id. -/
theorem c7_comment_routes :
    (Method.get, "/posts/:postId/comments") ∈ routeTable ∧
    (Method.post, "/comments/:postId") ∈ routeTable ∧
    (Method.patch, "/comments/:id") ∈ routeTable ∧
    (Method.delete, "/comments/:id") ∈ routeTable ∧
    (Method.post, "/posts/:postId/comments") ∉ routeTable := by decide

/-- Claim C10: `logIn` starts the session only after authentication
succeeds; when the credential pair fails authentication the handler
throws the authentication error and the session is left exactly as it
was. -/
theorem c10_login_auth_failure_leaves_session
    (sess : SessionDoc) (st : AppState) (username password : String)
    (h : st.users.find? (fun u => u.username == username && u.password == password) = none) :
    Routes.logIn username password sess st = (Except.error Err.badCredentials, sess, st) := by
  have ha : Authing.authenticate username password sess st = (Except.error Err.badCredentials, sess, st) := by
    simp [Authing.authenticate, h]
  exact bindM_err ha

/-- Claim C10, witness: on the empty state no credential pair
authenticates, and logging in fails leaving the session logged out. -/
theorem c10_witness :
    st0.users.find? (fun u => u.username == "alice" && u.password == "pw") = none ∧
    Routes.logIn "alice" "pw" none st0 = (Except.error Err.badCredentials, none, st0) :=
  ⟨rfl, c10_login_auth_failure_leaves_session none st0 "alice" "pw" rfl⟩

/-- Claim C9: `deleteUser` ends the session before deleting the account.
When the account deletion throws (the session user no longer exists), the
handler surfaces the error with the session already ended and not
restored: the operation is not atomic on failure. -/
theorem c9_deleteUser_not_atomic
    (u : Nat) (st : AppState)
    (h : Authing.findById u st.users = none) :
    Routes.deleteUser (some u) st = (Except.error Err.userNotFound, none, st) := by
  have h1 : Sessioning.getUser (some u) st = (Except.ok u, some u, st) := rfl
  have h2 : Sessioning.endSession (some u) st = (Except.ok (), none, st) := rfl
  have h3 : Authing.delete u none st = (Except.error Err.userNotFound, none, st) := by
    simp [Authing.delete, h]
  calc Routes.deleteUser (some u) st
      = bindM Sessioning.endSession (fun _ => Authing.delete u) (some u) st := bindM_ok h1
    _ = Authing.delete u none st := bindM_ok h2
    _ = (Except.error Err.userNotFound, none, st) := h3

/-- Claim C9, witness: a session bound to user 7 on the empty state; the
account deletion fails, yet the session comes back ended. -/
theorem c9_witness :
    Authing.findById 7 st0.users = none ∧
    Routes.deleteUser (some 7) st0 = (Except.error Err.userNotFound, none, st0) :=
  ⟨rfl, c9_deleteUser_not_atomic 7 st0 rfl⟩

/-- Claim C1: every mutating route on posts, comments and events asserts
that the session user is the owner/author before the mutating call; when
the target exists and its owner differs from the acting user the handler
throws the not-authorized error and the whole state is unchanged — the
mutation is never reached. -/
theorem c1_ownership_checks (u : Nat) (st : AppState) :
    (∀ pid p content options, Posting.findPost pid st.posts = some p → p.author ≠ u →
      Routes.updatePost pid content options (some u) st = (Except.error Err.notPostAuthor, some u, st)) ∧
    (∀ pid p, Posting.findPost pid st.posts = some p → p.author ≠ u →
      Routes.deletePost pid (some u) st = (Except.error Err.notPostAuthor, some u, st)) ∧
    (∀ cid c content options, Commenting.findComment cid st.comments = some c → c.author ≠ u →
      Routes.updateComment cid content options (some u) st = (Except.error Err.notCommentAuthor, some u, st)) ∧
    (∀ cid c, Commenting.findComment cid st.comments = some c → c.author ≠ u →
      Routes.deleteComment cid (some u) st = (Except.error Err.notCommentAuthor, some u, st)) ∧
    (∀ eid ev name s e ty, Scheduling.findEvent eid st.events = some ev → ev.owner ≠ u →
      Routes.updateEvent eid name s e ty (some u) st = (Except.error Err.notEventOwner, some u, st)) ∧
    (∀ eid ev, Scheduling.findEvent eid st.events = some ev → ev.owner ≠ u →
      Routes.deleteEvent eid (some u) st = (Except.error Err.notEventOwner, some u, st)) := by
  have h1 : Sessioning.getUser (some u) st = (Except.ok u, some u, st) := rfl
  refine ⟨?_, ?_, ?_, ?_, ?_, ?_⟩
  · intro pid p content options hp hne
    have h2 : Posting.assertAuthorIsUser pid u (some u) st =
        (Except.error Err.notPostAuthor, some u, st) := by
      simp [Posting.assertAuthorIsUser, hp, hne]
    exact (bindM_ok h1).trans (bindM_err h2)
  · intro pid p hp hne
    have h2 : Posting.assertAuthorIsUser pid u (some u) st =
        (Except.error Err.notPostAuthor, some u, st) := by
      simp [Posting.assertAuthorIsUser, hp, hne]
    exact (bindM_ok h1).trans (bindM_err h2)
  · intro cid c content options hc hne
    have h2 : Commenting.assertAuthorIsUser cid u (some u) st =
        (Except.error Err.notCommentAuthor, some u, st) := by
      simp [Commenting.assertAuthorIsUser, hc, hne]
    exact (bindM_ok h1).trans (bindM_err h2)
  · intro cid c hc hne
    have h2 : Commenting.assertAuthorIsUser cid u (some u) st =
        (Except.error Err.notCommentAuthor, some u, st) := by
      simp [Commenting.assertAuthorIsUser, hc, hne]
    exact (bindM_ok h1).trans (bindM_err h2)
  · intro eid ev name s e ty he hne
    have h2 : Scheduling.assertUserIsOwner eid u (some u) st =
        (Except.error Err.notEventOwner, some u, st) := by
      simp [Scheduling.assertUserIsOwner, he, hne]
    exact (bindM_ok h1).trans (bindM_err h2)
  · intro eid ev he hne
    have h2 : Scheduling.assertUserIsOwner eid u (some u) st =
        (Except.error Err.notEventOwner, some u, st) := by
      simp [Scheduling.assertUserIsOwner, he, hne]
    exact (bindM_ok h1).trans (bindM_err h2)

/-- Claim C1, witness: user 0 tries to mutate or delete the post, the
comment and the event owned by user 1 and every route rejects without
touching the state. -/
theorem c1_witness :
    Posting.findPost 2 stW.posts = some ⟨2, 1, "hello", none⟩ ∧
    (1 : Nat) ≠ 0 ∧
    Routes.updatePost 2 none none (some 0) stW = (Except.error Err.notPostAuthor, some 0, stW) ∧
    Routes.deletePost 2 (some 0) stW = (Except.error Err.notPostAuthor, some 0, stW) ∧
    Routes.updateComment 3 none none (some 0) stW = (Except.error Err.notCommentAuthor, some 0, stW) ∧
    Routes.deleteComment 3 (some 0) stW = (Except.error Err.notCommentAuthor, some 0, stW) ∧
    Routes.updateEvent 4 none none none none (some 0) stW = (Except.error Err.notEventOwner, some 0, stW) ∧
    Routes.deleteEvent 4 (some 0) stW = (Except.error Err.notEventOwner, some 0, stW) := by
  have hc := c1_ownership_checks 0 stW
  refine ⟨rfl, by decide, ?_, ?_, ?_, ?_, ?_, ?_⟩
  · exact hc.1 2 ⟨2, 1, "hello", none⟩ none none rfl (by decide)
  · exact hc.2.1 2 ⟨2, 1, "hello", none⟩ rfl (by decide)
  · exact hc.2.2.1 3 ⟨3, 2, 1, "hi", none⟩ none none rfl (by decide)
  · exact hc.2.2.2.1 3 ⟨3, 2, 1, "hi", none⟩ rfl (by decide)
  · exact hc.2.2.2.2.1 4 ⟨4, 1, "standup", ⟨"2024-01-01"⟩, ⟨"2024-01-02"⟩, EType.focus⟩
      none none none none rfl (by decide)
  · exact hc.2.2.2.2.2 4 ⟨4, 1, "standup", ⟨"2024-01-01"⟩, ⟨"2024-01-02"⟩, EType.focus⟩
      rfl (by decide)

/-- Claim C5: when `deleteUser` succeeds on a session bound to user `u`,
the returned session is ended, the stored users are exactly the previous
ones with `u` removed (self-deletion only), and the session user no
longer exists. -/
theorem c5_deleteUser_self_delete
    (u : Nat) (st : AppState) (r : String) (sess2 : SessionDoc) (st2 : AppState)
    (h : Routes.deleteUser (some u) st = (Except.ok r, sess2, st2)) :
    sess2 = none ∧ st2.users = st.users.filter (fun v => v.id != u) ∧
    Authing.findById u st2.users = none := by
  have h1 : Sessioning.getUser (some u) st = (Except.ok u, some u, st) := rfl
  have h2 : Sessioning.endSession (some u) st = (Except.ok (), none, st) := rfl
  have hred : Routes.deleteUser (some u) st = Authing.delete u none st :=
    (bindM_ok h1).trans (bindM_ok h2)
  rw [hred] at h
  rw [Authing.delete] at h
  cases hf : Authing.findById u st.users with
  | none => rw [hf] at h; simp at h
  | some v =>
      rw [hf] at h
      simp only [Prod.mk.injEq, Except.ok.injEq] at h
      obtain ⟨-, hsess, hst⟩ := h
      subst hsess
      subst hst
      refine ⟨rfl, rfl, ?_⟩
      rw [Authing.findById, List.find?_eq_none]
      intro a ha
      rw [List.mem_filter] at ha
      obtain ⟨-, ha2⟩ := ha
      simp only [bne_iff_ne, ne_eq] at ha2
      simp [ha2]

/-- Claim C5, witness: user 0 deletes their own account; the session
comes back ended and only user 1 remains. -/
theorem c5_witness :
    (none : SessionDoc) = none ∧
    ([⟨1, "bob", "pw"⟩] : List UserDoc) = stW.users.filter (fun v => v.id != 0) ∧
    Authing.findById 0 ([⟨1, "bob", "pw"⟩] : List UserDoc) = none := by
  have h := c5_deleteUser_self_delete 0 stW "User deleted!" none
    { stW with users := [⟨1, "bob", "pw"⟩] } rfl
  exact ⟨h.1, h.2.1, h.2.2⟩

/-- Claim C6: each friend-removal and friend-request route resolves the
username path parameter before delegating; when the username does not
resolve the handler throws the user-not-found error with session and
state unchanged, so the Friending concept is never invoked. -/
theorem c6_username_resolution
    (u : Nat) (st : AppState) (uname : String)
    (h : Authing.findByUsername uname st.users = none) :
    Routes.removeFriend uname (some u) st = (Except.error Err.userNotFound, some u, st) ∧
    Routes.sendFriendRequest uname (some u) st = (Except.error Err.userNotFound, some u, st) ∧
    Routes.removeFriendRequest uname (some u) st = (Except.error Err.userNotFound, some u, st) ∧
    Routes.acceptFriendRequest uname (some u) st = (Except.error Err.userNotFound, some u, st) ∧
    Routes.rejectFriendRequest uname (some u) st = (Except.error Err.userNotFound, some u, st) := by
  have h1 : Sessioning.getUser (some u) st = (Except.ok u, some u, st) := rfl
  have h2 : Authing.getUserByUsername uname (some u) st =
      (Except.error Err.userNotFound, some u, st) := by
    simp [Authing.getUserByUsername, h]
  exact ⟨(bindM_ok h1).trans (bindM_err h2), (bindM_ok h1).trans (bindM_err h2),
    (bindM_ok h1).trans (bindM_err h2), (bindM_ok h1).trans (bindM_err h2),
    (bindM_ok h1).trans (bindM_err h2)⟩

/-- Claim C6, witness: the username "ghost" resolves to nobody on the
empty state and all five friend routes reject without touching state. -/
theorem c6_witness :
    Authing.findByUsername "ghost" st0.users = none ∧
    Routes.removeFriend "ghost" (some 0) st0 = (Except.error Err.userNotFound, some 0, st0) ∧
    Routes.sendFriendRequest "ghost" (some 0) st0 = (Except.error Err.userNotFound, some 0, st0) ∧
    Routes.removeFriendRequest "ghost" (some 0) st0 = (Except.error Err.userNotFound, some 0, st0) ∧
    Routes.acceptFriendRequest "ghost" (some 0) st0 = (Except.error Err.userNotFound, some 0, st0) ∧
    Routes.rejectFriendRequest "ghost" (some 0) st0 = (Except.error Err.userNotFound, some 0, st0) := by
  have h := c6_username_resolution 0 st0 "ghost" rfl
  exact ⟨rfl, h.1, h.2.1, h.2.2.1, h.2.2.2.1, h.2.2.2.2⟩

theorem pendingExists_cons (f t : Nat) (r : FriendReqDoc) (l : List FriendReqDoc) :
    pendingExists f t (r :: l) =
      ((r.fromUser == f && r.toUser == t && r.status == RStatus.pending) || pendingExists f t l) := by
  simp [pendingExists]

theorem pendingExists_removePending (f t : Nat) (l : List FriendReqDoc) :
    pendingExists f t (removePending f t l) = false := by
  simp only [pendingExists, removePending]
  rw [List.any_eq_false]
  intro r hr
  rw [List.mem_filter] at hr
  obtain ⟨-, hcond⟩ := hr
  simp at hcond ⊢
  tauto

/-- Claim C2: friend-request lifecycle at route level.  If user `a`
(logged in) sends a request to user `b` and it succeeds, then accepting
it as `b` succeeds and leaves `a` and `b` mutually friends, while
rejecting it as `b` instead succeeds and leaves no friendship in either
direction and no residual pending request from `a` to `b`. -/
theorem c2_friend_request_lifecycle
    (st : AppState) (a b : Nat) (ua ub : String) (A B : UserDoc)
    (hA : Authing.findByUsername ua st.users = some A) (hAid : A.id = a)
    (hB : Authing.findByUsername ub st.users = some B) (hBid : B.id = b)
    (r1 : String) (st1 : AppState)
    (hsend : Routes.sendFriendRequest ub (some a) st = (Except.ok r1, some a, st1)) :
    (∃ r2 st2, Routes.acceptFriendRequest ua (some b) st1 = (Except.ok r2, some b, st2) ∧
      (a, b) ∈ st2.friends ∧ (b, a) ∈ st2.friends) ∧
    (∃ r3 st3, Routes.rejectFriendRequest ua (some b) st1 = (Except.ok r3, some b, st3) ∧
      (a, b) ∉ st3.friends ∧ (b, a) ∉ st3.friends ∧
      pendingExists a b st3.requests = false) := by
  have h1 : Sessioning.getUser (some a) st = (Except.ok a, some a, st) := rfl
  have h2 : Authing.getUserByUsername ub (some a) st = (Except.ok B, some a, st) := by
    simp [Authing.getUserByUsername, hB]
  have hred : Routes.sendFriendRequest ub (some a) st = Friending.sendRequest a b (some a) st := by
    calc Routes.sendFriendRequest ub (some a) st
        = bindM (Authing.getUserByUsername ub) (fun t => Friending.sendRequest a t.id) (some a) st :=
          bindM_ok h1
      _ = Friending.sendRequest a B.id (some a) st := bindM_ok h2
      _ = Friending.sendRequest a b (some a) st := by rw [hBid]
  rw [hred] at hsend
  simp only [Friending.sendRequest] at hsend
  split_ifs at hsend with hf hp
  · simp at hsend
  · simp at hsend
  · simp only [Prod.mk.injEq, Except.ok.injEq] at hsend
    obtain ⟨hr1, -, hst1⟩ := hsend
    rw [not_or] at hf
    obtain ⟨hf1, hf2⟩ := hf
    have hu : st1.users = st.users := by rw [← hst1]
    have hr : st1.requests = ⟨a, b, RStatus.pending⟩ :: st.requests := by rw [← hst1]
    have hfr : st1.friends = st.friends := by rw [← hst1]
    have g1 : Sessioning.getUser (some b) st1 = (Except.ok b, some b, st1) := rfl
    have g2 : Authing.getUserByUsername ua (some b) st1 = (Except.ok A, some b, st1) := by
      simp [Authing.getUserByUsername, hu, hA]
    have gredA : Routes.acceptFriendRequest ua (some b) st1 =
        Friending.acceptRequest a b (some b) st1 := by
      calc Routes.acceptFriendRequest ua (some b) st1
          = bindM (Authing.getUserByUsername ua) (fun f => Friending.acceptRequest f.id b) (some b) st1 :=
            bindM_ok g1
        _ = Friending.acceptRequest A.id b (some b) st1 := bindM_ok g2
        _ = Friending.acceptRequest a b (some b) st1 := by rw [hAid]
    have gredR : Routes.rejectFriendRequest ua (some b) st1 =
        Friending.rejectRequest a b (some b) st1 := by
      calc Routes.rejectFriendRequest ua (some b) st1
          = bindM (Authing.getUserByUsername ua) (fun f => Friending.rejectRequest f.id b) (some b) st1 :=
            bindM_ok g1
        _ = Friending.rejectRequest A.id b (some b) st1 := bindM_ok g2
        _ = Friending.rejectRequest a b (some b) st1 := by rw [hAid]
    have hpend : pendingExists a b st1.requests = true := by
      simp [pendingExists, hr]
    constructor
    · refine ⟨"Accepted request!",
        { st1 with
            requests := ⟨a, b, RStatus.accepted⟩ :: removePending a b st1.requests,
            friends := (a, b) :: (b, a) :: st1.friends }, ?_, ?_, ?_⟩
      · rw [gredA]
        simp [Friending.acceptRequest, hpend]
      · simp
      · simp
    · refine ⟨"Rejected request!",
        { st1 with
            requests := ⟨a, b, RStatus.rejected⟩ :: removePending a b st1.requests }, ?_, ?_, ?_, ?_⟩
      · rw [gredR]
        simp [Friending.rejectRequest, hpend]
      · simpa [hfr] using hf1
      · simpa [hfr] using hf2
      · simp [pendingExists_cons, pendingExists_removePending]

/-- Claim C2, witness: alice (id 0) sends a request to bob (id 1) on the
two-user state; bob can then either accept, producing the mutual
friendship, or reject, leaving no friendship and no pending request. -/
theorem c2_witness :
    Authing.findByUsername "alice" stW.users = some ⟨0, "alice", "pw"⟩ ∧
    Authing.findByUsername "bob" stW.users = some ⟨1, "bob", "pw"⟩ ∧
    ((∃ r2 st2, Routes.acceptFriendRequest "alice" (some 1)
        { stW with requests := [⟨0, 1, RStatus.pending⟩] } = (Except.ok r2, some 1, st2) ∧
        (0, 1) ∈ st2.friends ∧ (1, 0) ∈ st2.friends) ∧
     (∃ r3 st3, Routes.rejectFriendRequest "alice" (some 1)
        { stW with requests := [⟨0, 1, RStatus.pending⟩] } = (Except.ok r3, some 1, st3) ∧
        (0, 1) ∉ st3.friends ∧ (1, 0) ∉ st3.friends ∧
        pendingExists 0 1 st3.requests = false)) :=
  ⟨rfl, rfl,
   c2_friend_request_lifecycle stW 0 1 "alice" "bob" ⟨0, "alice", "pw"⟩ ⟨1, "bob", "pw"⟩
     rfl rfl rfl rfl "Sent request!" { stW with requests := [⟨0, 1, RStatus.pending⟩] } rfl⟩

/-- Claim C8: no route handler catches, retries, or transforms a
concept-call failure.  For every handler, a failure of its first concept
call, or of any later call reached after the earlier calls succeeded,
surfaces out of the handler as exactly the same error with exactly the
session and state the failing call left behind. -/
theorem c8_error_propagation :
    chain2Prop Sessioning.getUser Authing.getUserById Routes.getSessionUser ∧
    (∀ username, chainHead (Authing.getUserByUsername username) (Routes.getUser username)) ∧
    (∀ username password,
      chain2Prop Sessioning.isLoggedOut (fun _ => Authing.create username password)
        (Routes.createUser username password)) ∧
    (∀ username,
      chain2Prop Sessioning.getUser (fun u => Authing.updateUsername u username)
        (Routes.updateUsername username)) ∧
    (∀ cur new,
      chain2Prop Sessioning.getUser (fun u => Authing.updatePassword u cur new)
        (Routes.updatePassword cur new)) ∧
    chainHead Sessioning.getUser Routes.deleteUser ∧
    (∀ sess st u s2 t2 e s3 t3, Sessioning.getUser sess st = (Except.ok u, s2, t2) →
      Authing.delete u none t2 = (Except.error e, s3, t3) →
      Routes.deleteUser sess st = (Except.error e, s3, t3)) ∧
    (∀ username password,
      chainHead (Authing.authenticate username password) (Routes.logIn username password)) ∧
    (∀ a sess st e s2 t2, a ≠ "" →
      Authing.getUserByUsername a sess st = (Except.error e, s2, t2) →
      Routes.getPosts (some a) sess st = (Except.error e, s2, t2)) ∧
    (∀ content options, chainHead Sessioning.getUser (Routes.createPost content options)) ∧
    (∀ id content options,
      chain3Prop Sessioning.getUser (fun u => Posting.assertAuthorIsUser id u)
        (fun _ _ => Posting.update id content options) (Routes.updatePost id content options)) ∧
    (∀ id,
      chain2Prop Sessioning.getUser
        (fun u => bindM (Posting.assertAuthorIsUser id u) fun _ => Posting.delete id)
        (Routes.deletePost id)) ∧
    chainHead Sessioning.getUser Routes.getFriends ∧
    (∀ friend,
      chain3Prop Sessioning.getUser (fun _ => Authing.getUserByUsername friend)
        (fun u f => Friending.removeFriend u f.id) (Routes.removeFriend friend)) ∧
    chainHead Sessioning.getUser Routes.getRequests ∧
    (∀ t,
      chain3Prop Sessioning.getUser (fun _ => Authing.getUserByUsername t)
        (fun u f => Friending.sendRequest u f.id) (Routes.sendFriendRequest t)) ∧
    (∀ t,
      chain3Prop Sessioning.getUser (fun _ => Authing.getUserByUsername t)
        (fun u f => Friending.removeRequest u f.id) (Routes.removeFriendRequest t)) ∧
    (∀ f,
      chain3Prop Sessioning.getUser (fun _ => Authing.getUserByUsername f)
        (fun u g => Friending.acceptRequest g.id u) (Routes.acceptFriendRequest f)) ∧
    (∀ f,
      chain3Prop Sessioning.getUser (fun _ => Authing.getUserByUsername f)
        (fun u g => Friending.rejectRequest g.id u) (Routes.rejectFriendRequest f)) ∧
    (∀ postId content options,
      chainHead Sessioning.getUser (Routes.createComment postId content options)) ∧
    (∀ id content options,
      chain3Prop Sessioning.getUser (fun u => Commenting.assertAuthorIsUser id u)
        (fun _ _ => Commenting.update id content options) (Routes.updateComment id content options)) ∧
    (∀ id,
      chain2Prop Sessioning.getUser
        (fun u => bindM (Commenting.assertAuthorIsUser id u) fun _ => Commenting.delete id)
        (Routes.deleteComment id)) ∧
    chainHead Sessioning.getUser Routes.getEvents ∧
    (∀ name s e ty, chainHead Sessioning.getUser (Routes.createEvent name s e ty)) ∧
    (∀ id name s e ty,
      chain3Prop Sessioning.getUser (fun u => Scheduling.assertUserIsOwner id u)
        (fun _ _ => Scheduling.update id name (Option.map EDate.mk s) (Option.map EDate.mk e) ty)
        (Routes.updateEvent id name s e ty)) ∧
    (∀ id,
      chain2Prop Sessioning.getUser
        (fun u => bindM (Scheduling.assertUserIsOwner id u) fun _ => Scheduling.delete id)
        (Routes.deleteEvent id)) := by
  refine ⟨?_, ?_, ?_, ?_, ?_, ?_, ?_, ?_, ?_, ?_, ?_, ?_, ?_, ?_, ?_, ?_, ?_, ?_, ?_,
    ?_, ?_, ?_, ?_, ?_, ?_, ?_⟩
  · exact bind2_propagates _ _
  · intro username sess st e s2 t2 h
    exact h
  · intro username password
    exact bind2_propagates _ _
  · intro username
    exact bind2_propagates _ _
  · intro cur new
    exact bind2_propagates _ _
  · exact bindHead_propagates _ _
  · intro sess st u s2 t2 e s3 t3 h1 h2
    calc Routes.deleteUser sess st
        = bindM Sessioning.endSession (fun _ => Authing.delete u) s2 t2 := bindM_ok h1
      _ = Authing.delete u none t2 := bindM_ok rfl
      _ = (Except.error e, s3, t3) := h2
  · intro username password
    exact bindHead_propagates _ _
  · intro a sess st e s2 t2 hne h
    simp only [Routes.getPosts]
    rw [if_neg hne]
    exact bindM_err h
  · intro content options
    exact bindHead_propagates _ _
  · intro id content options
    exact bind3_propagates _ _ _
  · intro id
    exact bind2_propagates _ _
  · exact bindHead_propagates _ _
  · intro friend
    exact bind3_propagates _ _ _
  · exact bindHead_propagates _ _
  · intro t
    exact bind3_propagates _ _ _
  · intro t
    exact bind3_propagates _ _ _
  · intro f
    exact bind3_propagates _ _ _
  · intro f
    exact bind3_propagates _ _ _
  · intro postId content options
    exact bindHead_propagates _ _
  · intro id content options
    exact bind3_propagates _ _ _
  · intro id
    exact bind2_propagates _ _
  · exact bindHead_propagates _ _
  · intro name s e ty
    exact bindHead_propagates _ _
  · intro id name s e ty
    exact bind3_propagates _ _ _
  · intro id
    exact bind2_propagates _ _

/-- Claim C8, witness: on the empty state looking up the username "ghost"
throws user-not-found and the GET /users/:username handler surfaces
exactly that error, session and state untouched. -/
theorem c8_witness :
    Authing.getUserByUsername "ghost" none st0 = (Except.error Err.userNotFound, none, st0) ∧
    Routes.getUser "ghost" none st0 = (Except.error Err.userNotFound, none, st0) :=
  ⟨rfl, c8_error_propagation.2.1 "ghost" none st0 Err.userNotFound none st0 rfl⟩
